import Mathlib

/-
Verification of the generation core of the sop-builder-api repository:
the multi-provider LLM client (`scripts/utils/llm_client.py`) and the
section generator / template assembler with its content cache
(`scripts/generators/sop_generator.py`).

Modelling conventions:
- Machine integers and floats that the claims touch are modelled as `Nat`
  (`retry_attempts`, wait times, counters; `base_delay`/`max_delay` default
  to the integral values 1.0/60.0 and are modelled as 1/60).
- Wall-clock timestamps are threaded explicitly as `Nat` parameters.
  Python computes `datetime.now() - cache_time > cache_duration`; for
  `now < cache_time` that difference is negative, hence not `>` any
  non-negative duration, which agrees with truncated `Nat` subtraction.
- Network calls are an oracle `Provider → Nat → Except String LLMResponse`
  giving the outcome (raised exception or returned response) of the
  provider-specific `_call_*` on each attempt index.
- `hashlib.md5(...).hexdigest()` is an opaque deterministic function of the
  input string; it is passed as an explicit parameter `hf : String → String`
  so every theorem holds for the real digest function as well.
- Python `raise`/`except` is modelled with `Except`; a Python function that
  can also fall off the end of its body and return `None` (as
  `_try_provider` does when `retry_attempts == 0`) returns
  `Except String (Option LLMResponse)`.
-/

namespace SOP

set_option maxRecDepth 16384

/-- Python `pattern in s` substring test. -/
def strContains (s pat : String) : Bool := decide (pat.toList <:+: s.toList)

/-- Python `s.strip()`: remove leading and trailing whitespace. -/
def pyStrip (s : String) : String :=
  ⟨((s.toList.dropWhile Char.isWhitespace).reverse.dropWhile Char.isWhitespace).reverse⟩

/-- Python `s.split()` with no argument: whitespace-separated words, empties dropped. -/
def pyWords (s : String) : List String :=
  ((s.toList.splitOnP Char.isWhitespace).map (fun l => (⟨l⟩ : String))).filter (fun w => !w.isEmpty)

/-- Python `s.lower()` (character-wise lower-casing; the source only
lower-cases ASCII prompts and content). -/
def pyLower (s : String) : String := ⟨s.toList.map Char.toLower⟩

/-! ## Multi-provider LLM client (`llm_client.py`) -/

/-- The four concrete providers of `LLMProvider` (`llm_client.py` lines 16-21).
`AUTO`/`None` is represented by `Option Provider = none` at the call sites. -/
inductive Provider
  | groq
  | huggingface
  | together
  | openrouter
deriving DecidableEq, Repr

/-- `LLMProvider.<p>.value`. -/
def Provider.value : Provider → String
  | .groq => "groq"
  | .huggingface => "huggingface"
  | .together => "together"
  | .openrouter => "openrouter"

/-- The `LLMResponse` dataclass (`llm_client.py` lines 23-30).
`cost` and `response_time` are floats in the source, both relevant code paths
only ever store zero or an elapsed wall-clock time; they are modelled as `Nat`. -/
structure LLMResponse where
  content : String
  provider : String
  model : String
  tokens_used : Nat := 0
  cost : Nat := 0
  response_time : Nat := 0
deriving DecidableEq, Repr

/-- Provider priority order, `self.provider_order` (`llm_client.py` line 56). -/
def providerOrder : List Provider := [.groq, .huggingface, .together, .openrouter]

/-- The configuration the claims depend on: which providers are enabled
(`self.providers[p]['enabled']`) and `self.retry_attempts`. -/
structure ClientConfig where
  enabled : Provider → Bool
  retry_attempts : Nat

/-- Outcome of one provider call attempt: exception raised or response returned. -/
abbrev CallOracle := Nat → Except String LLMResponse

/-- What one `_try_provider` run did: its outcome (`.ok none` = fell off the
loop and returned Python `None`), how many call attempts were made, and the
`time.sleep` wait times (seconds) in the order they happened. -/
structure TryResult where
  outcome : Except String (Option LLMResponse)
  calls : Nat
  waits : List Nat
deriving Repr

/-- The retry loop of `FreeLLMClient._try_provider` (`llm_client.py` lines
161-190), with `fuel` remaining attempts and `idx` the 0-based index of the
current attempt.  On success the response's `provider` field is overwritten
with `provider.value` (line 180); on failure at a non-final attempt the loop
sleeps `2 ** attempt` seconds (line 186) and retries; a failure at the final
attempt re-raises. -/
def tryProviderAux (call : CallOracle) (p : Provider) : Nat → Nat → TryResult
  | 0, _ => ⟨.ok none, 0, []⟩
  | fuel + 1, idx =>
    match call idx with
    | .ok r => ⟨.ok (some { r with provider := p.value }), 1, []⟩
    | .error e =>
      if fuel = 0 then ⟨.error e, 1, []⟩
      else
        let rest := tryProviderAux call p fuel (idx + 1)
        ⟨rest.outcome, rest.calls + 1, 2 ^ idx :: rest.waits⟩

/-- `FreeLLMClient._try_provider`, entered with `attempt = 0` and
`self.retry_attempts` attempts available. -/
def tryProvider (cfg : ClientConfig) (call : CallOracle) (p : Provider) : TryResult :=
  tryProviderAux call p cfg.retry_attempts 0

/-- Source: llm_client.py `_get_fallback_content_by_type`, the `introduction` entry of `fallback_templates`. -/
def introductionTemplate : String :=
  "\n# Introduction to Food Safety Management\n\n## Overview\nThis Standard Operating Procedure (SOP) establishes comprehensive food safety protocols for restaurant operations to ensure compliance with health regulations and protect customer welfare.\n\n## Importance of Food Safety\n- **Public Health Protection**: Prevents foodborne illnesses that affect millions annually\n- **Legal Compliance**: Meets FDA Food Code and local health department requirements\n- **Business Protection**: Reduces liability and maintains reputation\n- **Operational Excellence**: Ensures consistent quality and customer satisfaction\n\n## Key Statistics\n- Foodborne illnesses affect 48 million Americans annually (CDC, 2023)\n- Proper food safety procedures reduce contamination risk by 85%\n- Restaurants with strong food safety programs see 40% fewer health violations\n\n## Regulatory Framework\n- **FDA Food Code**: Federal guidelines for food service establishments\n- **HACCP Principles**: Hazard Analysis Critical Control Points system\n- **Local Health Codes**: Municipality-specific requirements\n- **OSHA Standards**: Workplace safety in food service environments\n\n## Implementation Requirements\n- All staff must complete food safety training within 30 days of hire\n- Management must maintain current food safety certifications\n- Daily monitoring and documentation of critical control points\n- Regular internal audits and corrective action procedures\n            "

/-- Source: llm_client.py `_get_fallback_content_by_type`, the `daily_procedures` entry of `fallback_templates`. -/
def dailyProceduresTemplate : String :=
  "\n# Daily Food Safety Procedures\n\n## Opening Procedures\n\n### Equipment Verification (6:00 AM - 6:30 AM)\n1. **Temperature Checks**\n   - Refrigeration units: 35-38°F (walk-in coolers)\n   - Freezer units: 0-5°F (all freezers)\n   - Hot holding equipment: 140°F minimum\n   - Document all temperatures on daily log\n\n2. **Equipment Inspection**\n   - Verify proper operation of dishwashing equipment\n   - Check sanitizer concentration (200-400 ppm chlorine)\n   - Inspect food preparation surfaces for cleanliness\n   - Test probe thermometers for accuracy\n\n3. **Staff Health Screening**\n   - Visual health assessment for all employees\n   - Temperature checks if illness symptoms present\n   - Review exclusion criteria (fever, vomiting, diarrhea)\n   - Document health screening results\n\n## Closing Procedures\n\n### Sanitation and Security (9:00 PM - 10:00 PM)\n1. **Final Temperature Documentation**\n   - Record all refrigeration unit temperatures\n   - Verify proper cooling of hot foods\n   - Check freezer temperatures and door seals\n\n2. **Cleaning and Sanitization**\n   - Complete cleaning of all food contact surfaces\n   - Sanitize cutting boards and utensils\n   - Empty and clean grease traps\n   - Secure all food storage areas\n\n## Quality Checkpoints\n- ✅ All temperatures within safe ranges\n- ✅ Staff health screening completed\n- ✅ Equipment functioning properly\n- ✅ Cleaning logs completed and signed\n            "

/-- Source: llm_client.py `_get_fallback_content_by_type`, the `crisis_response` entry of `fallback_templates`. -/
def crisisResponseTemplate : String :=
  "\n# Emergency Response Procedures\n\n## Foodborne Illness Response\n\n### Immediate Actions (0-2 Hours)\n1. **Customer Safety**\n   - Isolate suspected contaminated food immediately\n   - Provide medical assistance if needed\n   - Document customer complaints and symptoms\n   - Contact emergency services if severe symptoms present\n\n2. **Investigation Protocol**\n   - Preserve suspected food samples for testing\n   - Review preparation logs and temperatures\n   - Interview staff involved in food preparation\n   - Document timeline of events\n\n3. **Regulatory Notification**\n   - Contact local health department within 2 hours\n   - Notify management and corporate office\n   - Prepare incident report documentation\n   - Coordinate with health officials for investigation\n\n## Power Outage Procedures\n\n### Equipment Protection\n1. **Immediate Response**\n   - Keep refrigeration doors closed\n   - Monitor internal temperatures every 30 minutes\n   - Use backup thermometers if available\n   - Document temperature readings\n\n2. **Food Safety Decisions**\n   - Discard perishables if temperature exceeds 41°F for >4 hours\n   - Transfer critical items to backup refrigeration if available\n   - Implement emergency menu with shelf-stable items\n   - Document all food disposal decisions\n\n## Contamination Events\n\n### Chemical Contamination\n1. **Immediate Isolation**\n   - Remove all affected food from service\n   - Evacuate area if chemical spill present\n   - Ventilate area and ensure staff safety\n   - Contact poison control if exposure occurs\n\n2. **Cleanup Protocol**\n   - Use appropriate PPE for cleanup\n   - Follow chemical-specific cleanup procedures\n   - Test area for residual contamination\n   - Document incident and corrective actions\n\n## Communication Plan\n- **Internal**: Manager → Staff → Corporate\n- **External**: Health Department → Customers → Media (if required)\n- **Documentation**: Incident reports, corrective actions, follow-up\n            "

/-- Source: llm_client.py `_get_fallback_content_by_type`, the `employee_training` entry of `fallback_templates`. -/
def employeeTrainingTemplate : String :=
  "\n# Employee Food Safety Training Program\n\n## Initial Training Requirements\n\n### New Employee Orientation (Week 1)\n1. **Food Safety Fundamentals**\n   - Personal hygiene requirements\n   - Handwashing procedures (20-second minimum)\n   - Proper use of gloves and utensils\n   - Temperature danger zone (41°F - 135°F)\n\n2. **Hands-On Training**\n   - Proper handwashing demonstration\n   - Thermometer use and calibration\n   - Cross-contamination prevention\n   - Cleaning and sanitizing procedures\n\n3. **Certification Requirements**\n   - Complete food handler certification within 30 days\n   - Pass written exam with 80% minimum score\n   - Demonstrate practical skills competency\n   - Maintain certification records in personnel file\n\n## Ongoing Education Program\n\n### Monthly Training Topics\n- **January**: Personal Hygiene and Health Policies\n- **February**: Temperature Control and Monitoring\n- **March**: Cross-Contamination Prevention\n- **April**: Cleaning and Sanitization\n- **May**: Allergen Management\n- **June**: HACCP Principles\n\n### Training Methods\n1. **Interactive Sessions**\n   - Group discussions and case studies\n   - Hands-on demonstrations\n   - Video training modules\n   - Competency assessments\n\n2. **Documentation Requirements**\n   - Training attendance records\n   - Competency evaluation forms\n   - Certification tracking\n   - Corrective action plans\n\n## Performance Monitoring\n\n### Daily Observations\n- Proper handwashing frequency\n- Correct glove usage\n- Temperature monitoring compliance\n- Cleaning procedure adherence\n\n### Monthly Evaluations\n- Written knowledge assessments\n- Practical skill demonstrations\n- Customer service integration\n- Corrective action follow-up\n\n## Training Resources\n- FDA Food Code guidelines\n- ServSafe certification materials\n- Company-specific procedures\n- Industry best practice guides\n            "

/-- The keyword dispatch of `FreeLLMClient._get_fallback_response`
(`llm_client.py` lines 327-340): an if/elif chain of substring tests over the
lower-cased user prompt, defaulting to `"general"`. -/
def fallbackSectionType (userPrompt : String) : String :=
  let lp := pyLower userPrompt
  if strContains lp "introduction" then "introduction"
  else if strContains lp "daily" || strContains lp "procedure" then "daily_procedures"
  else if strContains lp "crisis" || strContains lp "emergency" then "crisis_response"
  else if strContains lp "training" then "employee_training"
  else if strContains lp "monitoring" then "monitoring"
  else if strContains lp "documentation" then "documentation"
  else "general"

/-- `FreeLLMClient._get_fallback_content_by_type` (`llm_client.py` lines
352-560): `fallback_templates` holds entries only for the four keys below;
`fallback_templates.get(section_type, fallback_templates["introduction"])`
falls back to the introduction block for every other key (including
`"monitoring"`, `"documentation"` and `"general"`). -/
def fallbackContentByType (sectionType : String) : String :=
  if sectionType = "introduction" then introductionTemplate
  else if sectionType = "daily_procedures" then dailyProceduresTemplate
  else if sectionType = "crisis_response" then crisisResponseTemplate
  else if sectionType = "employee_training" then employeeTrainingTemplate
  else introductionTemplate

/-- `FreeLLMClient._get_fallback_response` (`llm_client.py` lines 324-350).
The `error` argument is ignored by the construction and omitted. -/
def getFallbackResponse (userPrompt : String) : LLMResponse :=
  let fallbackContent := fallbackContentByType (fallbackSectionType userPrompt)
  { content := fallbackContent
    provider := "fallback"
    model := "local_template"
    tokens_used := (pyWords fallbackContent).length
    cost := 0
    response_time := 0 }

/-- The AUTO-mode loop of `FreeLLMClient.generate_content` (`llm_client.py`
lines 139-159) over a provider list: skip disabled providers, return the
result of the first `_try_provider` run that does not raise (which is Python
`None` when `retry_attempts == 0`), and fall through to
`_get_fallback_response` when every enabled provider raised. -/
def autoLoop (cfg : ClientConfig) (call : Provider → CallOracle) (userPrompt : String) :
    List Provider → Option LLMResponse
  | [] => some (getFallbackResponse userPrompt)
  | p :: rest =>
    if cfg.enabled p then
      match (tryProvider cfg (call p) p).outcome with
      | .ok r => r
      | .error _ => autoLoop cfg call userPrompt rest
    else autoLoop cfg call userPrompt rest

/-- `FreeLLMClient.generate_content` (`llm_client.py` lines 119-159).
`providerArg = some p` is the explicit-provider mode (line 135-137), whose
exceptions propagate; `none` covers both `provider=None` and
`provider=LLMProvider.AUTO`, which run the fallback loop and never raise. -/
def generateContent (cfg : ClientConfig) (call : Provider → CallOracle)
    (_systemPrompt userPrompt : String) (providerArg : Option Provider) :
    Except String (Option LLMResponse) :=
  match providerArg with
  | some p => (tryProvider cfg (call p) p).outcome
  | none => .ok (autoLoop cfg call userPrompt providerOrder)

/-- The delay formula of the (unused) decorator `retry_with_exponential_backoff`
in `sop_generator.py` line 76: `min(base_delay * (2 ** attempt), max_delay)`. -/
def backoffDelay (baseDelay maxDelay attempt : Nat) : Nat :=
  min (baseDelay * 2 ^ attempt) maxDelay

/-- Default `base_delay: float = 1.0` of `retry_with_exponential_backoff`. -/
def backoffDefaultBaseDelay : Nat := 1

/-- Default `max_delay: float = 60.0` of `retry_with_exponential_backoff`. -/
def backoffDefaultMaxDelay : Nat := 60

/-! ## Content cache (`sop_generator.py`, class `TemplateCache`) -/

/-- One cached file: the stored content and the file's mtime, which the source
uses for TTL enforcement.  (`template_type`/`section_name` are also pickled but
never read back; they are omitted.) -/
structure CacheEntry where
  content : String
  timestamp : Nat
deriving DecidableEq, Repr

/-- The cache directory: one entry per cache-key string.  Keys are unique
(a `set` overwrites the file of its key). -/
abbrev CacheState := List (String × CacheEntry)

/-- `TemplateCache._get_cache_key` composed with the `prompt_hash` computation
of `get`/`set` (`sop_generator.py` lines 94-97, 106-107, 133-134):
`md5(f"{template_type}_{section_name}_{md5(prompt)}")`, with the digest
function abstracted as `hf`. -/
def cacheKey (hf : String → String) (templateType sectionName prompt : String) : String :=
  hf (templateType ++ "_" ++ sectionName ++ "_" ++ hf prompt)

/-- Remove the file of key `k` (used by the expiry branch and by `set`'s
overwrite). -/
def eraseKey (st : CacheState) (k : String) : CacheState :=
  st.filter (fun e => !(e.1 == k))

/-- `TemplateCache.get` (`sop_generator.py` lines 103-128): miss when no file
exists; when the entry's age exceeds the TTL (`now - cache_time > duration`,
strict) the stale file is deleted and the call misses; otherwise the stored
content is returned.  Returns the content (if any) and the resulting cache
directory state. -/
def cacheGet (hf : String → String) (ttl : Nat) (st : CacheState)
    (templateType sectionName prompt : String) (now : Nat) : Option String × CacheState :=
  match List.lookup (cacheKey hf templateType sectionName prompt) st with
  | none => (none, st)
  | some e =>
    if now - e.timestamp > ttl then
      (none, eraseKey st (cacheKey hf templateType sectionName prompt))
    else (some e.content, st)

/-- `TemplateCache.set` (`sop_generator.py` lines 130-149): write (overwrite)
the file of the triple's key with the content, stamped `now`. -/
def cacheSet (hf : String → String) (st : CacheState)
    (templateType sectionName prompt content : String) (now : Nat) : CacheState :=
  (cacheKey hf templateType sectionName prompt, ⟨content, now⟩) :: eraseKey st (cacheKey hf templateType sectionName prompt)

/-! ## Section generator (`sop_generator.py`, class `SOPGenerator`) -/

/-- The `SOPGenerator` configuration a `generate_section` call reads:
`template_type`, `industry_data.get('name', 'General')` (`none` = key absent),
the per-section base prompt `self.prompts.get(section_name, {}).get('base', '')`,
and the `use_hardcoded_content` flag. -/
structure GenCfg where
  templateType : String
  industryName : Option String
  basePromptFor : String → String
  useHardcoded : Bool

/-- The prompt built by `SOPGenerator.generate_section` (`sop_generator.py`
lines 313-332), an f-string over section name, industry name, template type,
the comma-joined compliance requirements and the per-section base prompt. -/
def generationPrompt (g : GenCfg) (name : String) (reqs : List String) : String :=
  "\n        Create a detailed SOP section for " ++ name ++ ".\n\n        Industry: " ++
  (g.industryName.getD "General") ++ "\n        Template Type: " ++ g.templateType ++
  "\n        Compliance Requirements: " ++ (String.intercalate ", " reqs) ++ "\n\n        " ++
  g.basePromptFor name ++
  "\n\n        Include:\n        - Step-by-step procedures\n        - Regulatory citations where applicable\n" ++
  "        - Best practices and tips\n        - Common mistakes to avoid\n        - Required documentation\n" ++
  "        - Quality checkpoints\n\n        Format the response in markdown with clear headers and bullet points.\n" ++
  "        Ensure the content is comprehensive and actionable.\n        "

-- hardcoded_content["Introduction"] (an f-string over self.template_type)
def hardcodedIntroduction (tt : String) : String :=
  "\n# Introduction\n\n## Purpose\nThis Standard Operating Procedure (SOP) provides comprehensive guidelines for " ++ tt ++ " operations to ensure consistency, quality, and compliance with industry standards.\n\n## Scope\nThis SOP applies to all staff members involved in " ++ tt ++ " operations and covers all related processes and procedures.\n\n## Overview\n- Establishes clear operational procedures\n- Ensures regulatory compliance\n- Maintains quality standards\n- Provides training guidelines\n            "

-- hardcoded_content["Procedures"]
def hardcodedProcedures : String :=
  "\n# Standard Operating Procedures\n\n## Core Procedures\n\n### 1. Preparation Phase\n- Review all requirements and documentation\n- Ensure all necessary resources are available\n- Verify compliance with current regulations\n- Complete pre-operation checklist\n\n### 2. Execution Phase\n- Follow established protocols step-by-step\n- Monitor quality at each checkpoint\n- Document all activities and observations\n- Address any deviations immediately\n\n### 3. Completion Phase\n- Conduct final quality review\n- Complete all required documentation\n- Store records according to retention policy\n- Prepare for next operation cycle\n\n## Quality Checkpoints\n- Initial setup verification\n- Mid-process quality check\n- Final output validation\n- Documentation review\n            "

-- hardcoded_content["Compliance Requirements"]
def hardcodedCompliance : String :=
  "\n# Compliance Requirements\n\n## Regulatory Standards\n- Industry-specific regulations must be followed\n- Regular compliance audits are required\n- Staff training on compliance is mandatory\n- Documentation must meet regulatory standards\n\n## Quality Standards\n- ISO 9001 quality management principles\n- Industry best practices implementation\n- Continuous improvement processes\n- Customer satisfaction monitoring\n\n## Documentation Requirements\n- All procedures must be documented\n- Records must be maintained for required periods\n- Regular review and updates are necessary\n- Access controls must be implemented\n            "

-- hardcoded_content["Documentation"]
def hardcodedDocumentation : String :=
  "\n# Documentation Requirements\n\n## Required Documents\n- Standard Operating Procedures\n- Training records and certifications\n- Quality control checklists\n- Incident reports and corrective actions\n- Audit reports and compliance records\n\n## Record Keeping\n- All records must be accurate and complete\n- Digital and physical storage requirements\n- Retention periods must be observed\n- Regular backup and recovery procedures\n\n## Review and Updates\n- Annual review of all documentation\n- Updates based on regulatory changes\n- Version control and change management\n- Staff notification of updates\n            "

/-- `SOPGenerator._get_hardcoded_content` (`sop_generator.py` lines 406-506):
a four-entry table plus the default stub
`f"# {section_name}\n\nContent for {section_name} section."`. -/
def hardcodedContent (tt name : String) : String :=
  if name = "Introduction" then hardcodedIntroduction tt
  else if name = "Procedures" then hardcodedProcedures
  else if name = "Compliance Requirements" then hardcodedCompliance
  else if name = "Documentation" then hardcodedDocumentation
  else "# " ++ name ++ "\n\nContent for " ++ name ++ " section."

/-- `SOPGenerator._get_fallback_content` (`sop_generator.py` lines 508-537),
an f-string over the section name and the template type. -/
def fallbackContentExpr (tt name : String) : String :=
  "\n# " ++ name ++ "\n\n## Overview\nThis section covers the " ++ pyLower name ++
  " requirements for " ++ tt ++
  " operations.\n\n## Key Points\n- Follow established procedures\n- Maintain quality standards\n- Ensure compliance with regulations\n- Document all activities\n\n## Next Steps\n- Review detailed procedures\n- Complete required training\n- Implement quality controls\n- Monitor compliance\n\n*Note: This is fallback content. Please review and customize based on specific requirements.*\n        "

/-- The `required_elements` table of `SOPGenerator._validate_section_content`
(`sop_generator.py` lines 384-391). -/
def requiredElements (name : String) : List String :=
  if name = "Introduction" then ["purpose", "scope", "overview"]
  else if name = "Procedures" then ["step", "procedure", "process"]
  else if name = "Compliance Requirements" then ["requirement", "regulation", "standard"]
  else if name = "Documentation" then ["document", "record", "form"]
  else []

/-- The markdown structural markers checked at `sop_generator.py` line 400. -/
def markdownMarkers : List String := ["#", "*", "-", "1."]

/-- `content` contains at least one of the markdown markers. -/
def hasMarkdownMarker (content : String) : Bool :=
  markdownMarkers.any (fun m => strContains content m)

/-- `SOPGenerator._validate_section_content` (`sop_generator.py` lines
368-404): reject empty/short content, content missing every section-specific
keyword (matched against the lower-cased content), and content without any
markdown marker. -/
def validateSectionContent (name content : String) : Bool :=
  if content.isEmpty || (pyStrip content).length < 100 then false
  else if !(requiredElements name).isEmpty &&
      !((requiredElements name).any (fun r => strContains (pyLower content) r)) then false
  else if !hasMarkdownMarker content then false
  else true

/-- The part of `SOPGenerator.generate_section` after a cache miss
(`sop_generator.py` lines 340-366).  `api` is the outcome of
`_call_llm_api(prompt, section_name)`: `.error` for any raised exception,
`.ok c` for returned content.  In hardcoded mode the static table is used and
cached; otherwise generated content is validated (invalid content is replaced
by the static fallback) and the resulting content — generated, fallback, or
hardcoded — is cached under the generation prompt. -/
def generateSectionMiss (g : GenCfg) (hf : String → String) (api : Except String String)
    (st : CacheState) (now : Nat) (name prompt : String) : String × CacheState :=
  if g.useHardcoded then
    (hardcodedContent g.templateType name,
     cacheSet hf st g.templateType name prompt (hardcodedContent g.templateType name) now)
  else
    match api with
    | .ok c0 =>
      if validateSectionContent name c0 then
        (c0, cacheSet hf st g.templateType name prompt c0 now)
      else
        (fallbackContentExpr g.templateType name,
         cacheSet hf st g.templateType name prompt (fallbackContentExpr g.templateType name) now)
    | .error _ =>
      (fallbackContentExpr g.templateType name,
       cacheSet hf st g.templateType name prompt (fallbackContentExpr g.templateType name) now)

/-- `SOPGenerator.generate_section` (`sop_generator.py` lines 296-366).
Builds the prompt, consults the cache (`if cached_content:` — a cached empty
string is falsy and treated as a miss), and otherwise proceeds per
`generateSectionMiss`.  Total: every path returns content. -/
def generateSection (g : GenCfg) (hf : String → String) (ttl : Nat)
    (api : Except String String) (st : CacheState) (now : Nat)
    (name : String) (reqs : List String) : String × CacheState :=
  match cacheGet hf ttl st g.templateType name (generationPrompt g name reqs) now with
  | (some c, st1) =>
    if c.isEmpty then generateSectionMiss g hf api st1 now name (generationPrompt g name reqs)
    else (c, st1)
  | (none, st1) => generateSectionMiss g hf api st1 now name (generationPrompt g name reqs)

/-! ## Template assembler (`SOPGenerator.generate_template`) -/

/-- One entry of the compliance configuration's `sections` list: `name` is
mandatory, `order` may be absent (sort key then defaults to 999), `required`
defaults to true, and `requirements.get('compliance', [])` is the compliance
string list used for the prompt. -/
structure SectionDef where
  name : String
  order : Option Nat
  required : Bool
  compliance : List String
deriving DecidableEq, Repr

/-- `SOPGenerator._get_default_compliance_data()['sections']`
(`sop_generator.py` lines 240-245), substituted when the configured section
list is empty (line 550-552). -/
def defaultSections : List SectionDef :=
  [⟨"Introduction", some 1, true, []⟩,
   ⟨"Procedures", some 2, true, []⟩,
   ⟨"Compliance Requirements", some 3, true, []⟩,
   ⟨"Documentation", some 4, true, []⟩]

/-- One value of the `generated_content['sections']` mapping
(`sop_generator.py` lines 595-601 / 617-624).  `generated_at` is wall-clock
noise and omitted. -/
structure SectionRecord where
  content : String
  order : Nat
  required : Bool
  cached : Bool
  error : Option String
deriving DecidableEq, Repr

/-- `generated_content['generation_stats']`. -/
structure GenerationStats where
  total_sections : Nat
  successful_sections : Nat
  failed_sections : Nat
  cached_sections : Nat
deriving DecidableEq, Repr

/-- The parts of the returned template dictionary the claims are about:
the `sections` name-keyed mapping (a Python dict, modelled as an
insertion-ordered association list with unique keys) and the stats. -/
structure DocumentModel where
  sections : List (String × SectionRecord)
  stats : GenerationStats
deriving DecidableEq, Repr

/-- Python dict assignment `sections[k] = v`: replace in place if the key
exists, else append. -/
def upsertRecord (m : List (String × SectionRecord)) (k : String) (v : SectionRecord) :
    List (String × SectionRecord) :=
  if m.any (fun e => e.1 == k) then m.map (fun e => if e.1 == k then (k, v) else e)
  else m ++ [(k, v)]

/-- The dummy prompt of the cache pre-check at `sop_generator.py` line 587:
`f"dummy_prompt_for_cache_check_{section_name}"`. -/
def dummyPrompt (name : String) : String :=
  "dummy_prompt_for_cache_check_" ++ name

/-- The body of one loop iteration of `generate_template`, abstracted over the
section-generation call (which in the source is `self.generate_section(...)`
inside a `try`): `gen` receives the cache state, the enumeration index and the
section, and returns the content and new cache state or raises. -/
abbrev SectionGen := CacheState → Nat → SectionDef → Except String (String × CacheState)

/-- Accumulator of the `generate_template` loop. -/
structure AsmState where
  sections : List (String × SectionRecord)
  successful : Nat
  failed : Nat
  cached : Nat
  cache : CacheState

/-- One iteration of the loop of `SOPGenerator.generate_template`
(`sop_generator.py` lines 580-626): cache pre-check with the dummy prompt
(`is_cached` is an `is not None` test), then the section generation; on
success the record is stored with the pre-check's `cached` flag and the
success/cached counters advance; on a raised exception the record stores
fallback content with `cached: False` and the failure counter advances.
The pre-check `self.cache.get(self.template_type, section_name, prompt)` uses
the dummy prompt (`sop_generator.py` lines 586-588). -/
def preCheck (g : GenCfg) (hf : String → String) (ttl : Nat) (a : AsmState)
    (s : SectionDef) (now : Nat) : Option String × CacheState :=
  cacheGet hf ttl a.cache g.templateType s.name (dummyPrompt s.name) now

def assembleStep (g : GenCfg) (hf : String → String) (ttl : Nat) (gen : SectionGen)
    (now : Nat) (a : AsmState) (is : Nat × SectionDef) : AsmState :=
  match gen (preCheck g hf ttl a is.2 now).2 is.1 is.2 with
  | .ok (content, st2) =>
    { sections := upsertRecord a.sections is.2.name
        ⟨content, is.2.order.getD (is.1 + 1), is.2.required,
         (preCheck g hf ttl a is.2 now).1.isSome, none⟩
      successful := a.successful + 1
      failed := a.failed
      cached := a.cached + (if (preCheck g hf ttl a is.2 now).1.isSome then 1 else 0)
      cache := st2 }
  | .error e =>
    { sections := upsertRecord a.sections is.2.name
        ⟨fallbackContentExpr g.templateType is.2.name, is.2.order.getD (is.1 + 1),
         is.2.required, false, some e⟩
      successful := a.successful
      failed := a.failed + 1
      cached := a.cached
      cache := (preCheck g hf ttl a is.2 now).2 }

/-- The section list actually iterated: the configured list, or the defaults
when it is empty (`sop_generator.py` lines 549-552). -/
def templateStructure (input : List SectionDef) : List SectionDef :=
  if input.isEmpty then defaultSections else input

/-- Stable insertion of `x` into a list sorted ascending on the order key:
`x` goes before the first element whose key is not smaller, so elements with
equal keys keep their original relative order. -/
def insertByOrder (x : SectionDef) : List SectionDef → List SectionDef
  | [] => [x]
  | y :: t =>
    if y.order.getD 999 < x.order.getD 999 then y :: insertByOrder x t
    else x :: y :: t

/-- `template_structure.sort(key=lambda x: x.get('order', 999))`
(`sop_generator.py` line 574): Python `list.sort` is a stable ascending sort
on the key, which determines the result uniquely; it is realized here as a
stable insertion sort (structural recursion, so runs both in the compiler and
the kernel). -/
def sortByOrder : List SectionDef → List SectionDef
  | [] => []
  | x :: t => insertByOrder x (sortByOrder t)

/-- The section list after the in-place sort. -/
def sortedStructure (input : List SectionDef) : List SectionDef :=
  sortByOrder (templateStructure input)

/-- `SOPGenerator.generate_template` (`sop_generator.py` lines 539-658),
restricted to the section loop and its statistics: returns the document model
and the final cache state.  `total_sections` is the length of the iterated
structure (line 566). -/
def generateTemplate (g : GenCfg) (hf : String → String) (ttl : Nat) (gen : SectionGen)
    (now : Nat) (st0 : CacheState) (input : List SectionDef) : DocumentModel × CacheState :=
  let a := ((sortedStructure input).enum).foldl (assembleStep g hf ttl gen now)
    ⟨[], 0, 0, 0, st0⟩
  (⟨a.sections, ⟨(templateStructure input).length, a.successful, a.failed, a.cached⟩⟩, a.cache)

/-- The loop body as the source instantiates it: `generate_section` never
raises, so `gen` always returns `.ok`.  `api i` is the `_call_llm_api` outcome
for the section at enumeration index `i`. -/
def sectionGenOf (g : GenCfg) (hf : String → String) (ttl : Nat)
    (api : Nat → Except String String) (now : Nat) : SectionGen :=
  fun st i s => .ok (generateSection g hf ttl (api i) st now s.name s.compliance)

/-- `generate_template` as run by the source. -/
def generateTemplateRun (g : GenCfg) (hf : String → String) (ttl : Nat)
    (api : Nat → Except String String) (now : Nat) (st0 : CacheState)
    (input : List SectionDef) : DocumentModel × CacheState :=
  generateTemplate g hf ttl (sectionGenOf g hf ttl api now) now st0 input

/-! ## Retry-loop lemmas -/

theorem tryProviderAux_step (call : CallOracle) (p : Provider) (m idx : Nat) (e : String)
    (hc : call idx = .error e) :
    tryProviderAux call p (m + 1 + 1) idx =
      ⟨(tryProviderAux call p (m + 1) (idx + 1)).outcome,
       (tryProviderAux call p (m + 1) (idx + 1)).calls + 1,
       2 ^ idx :: (tryProviderAux call p (m + 1) (idx + 1)).waits⟩ := by
  have hu : tryProviderAux call p (m + 1 + 1) idx = (match call idx with
    | .ok r => ⟨.ok (some { r with provider := p.value }), 1, []⟩
    | .error e =>
      if m + 1 = 0 then ⟨.error e, 1, []⟩
      else
        let rest := tryProviderAux call p (m + 1) (idx + 1)
        ⟨rest.outcome, rest.calls + 1, 2 ^ idx :: rest.waits⟩) := rfl
  rw [hu, hc]
  simp [Nat.succ_ne_zero]

theorem generateContent_auto (cfg : ClientConfig) (call : Provider → CallOracle)
    (sp up : String) :
    generateContent cfg call sp up none = .ok (autoLoop cfg call up providerOrder) := rfl

theorem tryProviderAux_error (call : CallOracle) (p : Provider) :
    ∀ fuel idx, 0 < fuel → (∀ j, idx ≤ j → j < idx + fuel → (call j).isOk = false) →
    ∃ e, (tryProviderAux call p fuel idx).outcome = Except.error e := by
  intro fuel
  induction fuel with
  | zero => intro idx h; omega
  | succ n ih =>
    intro idx _ hfail
    have hidx := hfail idx (Nat.le_refl idx) (by omega)
    cases hc : call idx with
    | ok r => rw [hc] at hidx; simp [Except.isOk, Except.toBool] at hidx
    | error e =>
      cases n with
      | zero => exact ⟨e, by simp [tryProviderAux, hc]⟩
      | succ m =>
        obtain ⟨e2, he2⟩ := ih (idx + 1) (Nat.succ_pos m)
          (fun j hj1 hj2 => hfail j (by omega) (by omega))
        exact ⟨e2, by simp [tryProviderAux, hc]; exact he2⟩

theorem tryProviderAux_calls (call : CallOracle) (p : Provider) :
    ∀ fuel idx, (∀ j, idx ≤ j → j < idx + fuel → (call j).isOk = false) →
    (tryProviderAux call p fuel idx).calls = fuel := by
  intro fuel
  induction fuel with
  | zero => intro idx _; rfl
  | succ n ih =>
    intro idx hfail
    have hidx := hfail idx (Nat.le_refl idx) (by omega)
    cases hc : call idx with
    | ok r => rw [hc] at hidx; simp [Except.isOk, Except.toBool] at hidx
    | error e =>
      cases n with
      | zero => simp [tryProviderAux, hc]
      | succ m =>
        have hrec := ih (idx + 1) (fun j hj1 hj2 => hfail j (by omega) (by omega))
        rw [tryProviderAux_step call p m idx e hc]
        show (tryProviderAux call p (m + 1) (idx + 1)).calls + 1 = m + 1 + 1
        rw [hrec]

theorem tryProviderAux_waits (call : CallOracle) (p : Provider) :
    ∀ fuel idx, (∀ j, idx ≤ j → j < idx + fuel → (call j).isOk = false) →
    (tryProviderAux call p fuel idx).waits = (List.range' idx (fuel - 1)).map (fun a => 2 ^ a) := by
  intro fuel
  induction fuel with
  | zero => intro idx _; rfl
  | succ n ih =>
    intro idx hfail
    have hidx := hfail idx (Nat.le_refl idx) (by omega)
    cases hc : call idx with
    | ok r => rw [hc] at hidx; simp [Except.isOk, Except.toBool] at hidx
    | error e =>
      cases n with
      | zero => simp [tryProviderAux, hc]
      | succ m =>
        have hrec := ih (idx + 1) (fun j hj1 hj2 => hfail j (by omega) (by omega))
        rw [tryProviderAux_step call p m idx e hc]
        show 2 ^ idx :: (tryProviderAux call p (m + 1) (idx + 1)).waits =
          (List.range' idx (m + 1 + 1 - 1)).map (fun a => 2 ^ a)
        rw [hrec, Nat.succ_sub_one, Nat.succ_sub_one, List.range'_succ, List.map_cons]

theorem tryProviderAux_first_ok (call : CallOracle) (p : Provider) (fuel idx : Nat)
    (r : LLMResponse) (h : call idx = .ok r) :
    tryProviderAux call p (fuel + 1) idx = ⟨.ok (some { r with provider := p.value }), 1, []⟩ := by
  simp [tryProviderAux, h]

/-! ## AUTO-mode loop lemmas -/

theorem autoLoop_skip (cfg : ClientConfig) (call : Provider → CallOracle) (up : String) :
    ∀ l₁ rest, (∀ p ∈ l₁, cfg.enabled p = false) →
    autoLoop cfg call up (l₁ ++ rest) = autoLoop cfg call up rest := by
  intro l₁
  induction l₁ with
  | nil => intro rest _; rfl
  | cons q t ih =>
    intro rest hdis
    have hq := hdis q (List.mem_cons.mpr (Or.inl rfl))
    simp only [List.cons_append, autoLoop, hq, if_false]
    exact ih rest (fun p hp => hdis p (List.mem_cons.mpr (Or.inr hp)))

theorem autoLoop_error_head (cfg : ClientConfig) (call : Provider → CallOracle) (up : String)
    (p : Provider) (rest : List Provider) (he : cfg.enabled p = true)
    (herr : ∃ e, (tryProvider cfg (call p) p).outcome = .error e) :
    autoLoop cfg call up (p :: rest) = autoLoop cfg call up rest := by
  obtain ⟨e, hev⟩ := herr
  simp [autoLoop, he, hev]

theorem autoLoop_ok_head (cfg : ClientConfig) (call : Provider → CallOracle) (up : String)
    (p : Provider) (rest : List Provider) (r : Option LLMResponse) (he : cfg.enabled p = true)
    (hok : (tryProvider cfg (call p) p).outcome = .ok r) :
    autoLoop cfg call up (p :: rest) = r := by
  simp [autoLoop, he, hok]

theorem autoLoop_fallback (cfg : ClientConfig) (call : Provider → CallOracle) (up : String) :
    ∀ l, (∀ p ∈ l, cfg.enabled p = true → ∃ e, (tryProvider cfg (call p) p).outcome = .error e) →
    autoLoop cfg call up l = some (getFallbackResponse up) := by
  intro l
  induction l with
  | nil => intro _; rfl
  | cons q t ih =>
    intro hall
    have ht := ih (fun p hp => hall p (List.mem_cons.mpr (Or.inr hp)))
    cases he : cfg.enabled q with
    | false => simpa [autoLoop, he] using ht
    | true =>
      obtain ⟨e, hev⟩ := hall q (List.mem_cons.mpr (Or.inl rfl)) he
      simpa [autoLoop, he, hev] using ht

theorem fallbackContentByType_ne_empty (t : String) : fallbackContentByType t ≠ "" := by
  unfold fallbackContentByType
  split
  · decide
  · split
    · decide
    · split
      · decide
      · split
        · decide
        · decide

/-! ## Claims about the generation client -/

/-- C1: in AUTO mode, with no provider enabled, or with every enabled provider
raising on each of its (at least one) attempts, `generate_content` does not
raise and returns the `LLMResponse` synthesized by `_get_fallback_response`,
whose `provider` field is `"fallback"` and whose `content` is non-empty. -/
theorem generate_content_total_failure_returns_fallback
    (cfg : ClientConfig) (call : Provider → CallOracle) (sp up : String)
    (h : (∀ p ∈ providerOrder, cfg.enabled p = false) ∨
         (0 < cfg.retry_attempts ∧
          ∀ p, cfg.enabled p = true → ∀ i, i < cfg.retry_attempts → (call p i).isOk = false)) :
    generateContent cfg call sp up none = .ok (some (getFallbackResponse up)) ∧
    (getFallbackResponse up).provider = "fallback" ∧
    (getFallbackResponse up).content ≠ "" := by
  refine ⟨?_, rfl, fallbackContentByType_ne_empty _⟩
  rw [generateContent_auto, autoLoop_fallback cfg call up providerOrder ?_]
  intro p hp hen
  rcases h with hnone | ⟨hR, hfail⟩
  · rw [hnone p hp] at hen; cases hen
  · exact tryProviderAux_error (call p) p cfg.retry_attempts 0 hR
      (fun j _ hj2 => hfail p hen j (by omega))

/-- Witness for C1 at a concrete input (no provider enabled). -/
theorem generate_content_total_failure_returns_fallback_witness :
    generateContent ⟨fun _ => false, 3⟩ (fun _ _ => .error "down") "sys" "user" none =
      .ok (some (getFallbackResponse "user")) ∧
    (getFallbackResponse "user").provider = "fallback" ∧
    (getFallbackResponse "user").content ≠ "" :=
  generate_content_total_failure_returns_fallback ⟨fun _ => false, 3⟩ (fun _ _ => .error "down")
    "sys" "user" (Or.inl (by decide))

/-- C3: in AUTO mode, when the enabled providers start with `a` (everything
before it disabled) followed — after further disabled providers — by `b`, and
`a`'s call raises on every attempt while `b`'s first call returns `rb`, the
result is `rb` tagged with `b`'s identifier, and `a` was attempted exactly
`retry_attempts` times. -/
theorem generate_content_failover_to_next_provider
    (cfg : ClientConfig) (call : Provider → CallOracle) (sp up : String)
    (l₁ l₂ l₃ : List Provider) (a b : Provider) (rb : LLMResponse)
    (horder : providerOrder = l₁ ++ a :: (l₂ ++ b :: l₃))
    (h₁ : ∀ p ∈ l₁, cfg.enabled p = false)
    (h₂ : ∀ p ∈ l₂, cfg.enabled p = false)
    (ha : cfg.enabled a = true) (hb : cfg.enabled b = true)
    (hR : 0 < cfg.retry_attempts)
    (hafail : ∀ i, i < cfg.retry_attempts → (call a i).isOk = false)
    (hbok : call b 0 = .ok rb) :
    generateContent cfg call sp up none = .ok (some { rb with provider := b.value }) ∧
    (tryProvider cfg (call a) a).calls = cfg.retry_attempts := by
  constructor
  · rw [generateContent_auto, horder, autoLoop_skip cfg call up l₁ _ h₁,
      autoLoop_error_head cfg call up a _ ha
        (tryProviderAux_error (call a) a cfg.retry_attempts 0 hR
          (fun j _ hj2 => hafail j (by omega))),
      autoLoop_skip cfg call up l₂ _ h₂,
      autoLoop_ok_head cfg call up b _ _ hb ?_]
    obtain ⟨m, hm⟩ := Nat.exists_eq_succ_of_ne_zero (Nat.pos_iff_ne_zero.mp hR)
    show (tryProviderAux (call b) b cfg.retry_attempts 0).outcome = _
    rw [hm, tryProviderAux_first_ok (call b) b m 0 rb hbok]
  · exact tryProviderAux_calls (call a) a cfg.retry_attempts 0
      (fun j _ hj2 => hafail j (by omega))

/-- Witness for C3: groq enabled and always failing, huggingface enabled and
succeeding on its first attempt, three retry attempts. -/
theorem generate_content_failover_to_next_provider_witness :
    generateContent
        ⟨fun p => p = .groq ∨ p = .huggingface, 3⟩
        (fun p _ => if p = .huggingface then .ok ⟨"hello", "", "m", 0, 0, 0⟩ else .error "rate limited")
        "sys" "user" none =
      .ok (some ⟨"hello", "huggingface", "m", 0, 0, 0⟩) ∧
    (tryProvider ⟨fun p => p = .groq ∨ p = .huggingface, 3⟩
        (fun _ => .error "rate limited") .groq).calls = 3 := by
  have h := generate_content_failover_to_next_provider
    ⟨fun p => p = .groq ∨ p = .huggingface, 3⟩
    (fun p _ => if p = .huggingface then .ok ⟨"hello", "", "m", 0, 0, 0⟩ else .error "rate limited")
    "sys" "user" [] [] [.together, .openrouter] .groq .huggingface ⟨"hello", "", "m", 0, 0, 0⟩
    (by decide) (by decide) (by decide) (by decide) (by decide) (by decide)
    (by decide) rfl
  exact h

/-- C10 (claim): with `retry_attempts = 0` the retry loop body never runs, so
`_try_provider` makes no call, raises nothing and returns Python `None`; and
AUTO-mode `generate_content` with at least one enabled provider therefore
returns `None` instead of an `LLMResponse`. -/
theorem zero_retry_attempts_returns_none
    (cfg : ClientConfig) (call : Provider → CallOracle) (sp up : String)
    (hR : cfg.retry_attempts = 0)
    (hen : ∃ p, p ∈ providerOrder ∧ cfg.enabled p = true) :
    (∀ p, tryProvider cfg (call p) p = ⟨.ok none, 0, []⟩) ∧
    generateContent cfg call sp up none = .ok none := by
  have htp : ∀ p, tryProvider cfg (call p) p = ⟨.ok none, 0, []⟩ := by
    intro p
    show tryProviderAux (call p) p cfg.retry_attempts 0 = _
    rw [hR]
    rfl
  refine ⟨htp, ?_⟩
  rw [generateContent_auto]
  obtain ⟨p0, hp0, hen0⟩ := hen
  have : ∀ l : List Provider, (∃ p, p ∈ l ∧ cfg.enabled p = true) →
      autoLoop cfg call up l = none := by
    intro l
    induction l with
    | nil => rintro ⟨p, hp, _⟩; cases hp
    | cons q t ih =>
      rintro ⟨p, hp, hpe⟩
      cases he : cfg.enabled q with
      | true =>
        have : (tryProvider cfg (call q) q).outcome = .ok none := by rw [htp q]
        simp [autoLoop, he, this]
      | false =>
        rcases List.mem_cons.mp hp with rfl | hpt
        · rw [he] at hpe; cases hpe
        · simpa [autoLoop, he] using ih ⟨p, hpt, hpe⟩
  rw [this providerOrder ⟨p0, hp0, hen0⟩]

/-- Witness for C10: groq enabled, zero retry attempts. -/
theorem zero_retry_attempts_returns_none_witness :
    generateContent ⟨fun _ => true, 0⟩ (fun _ _ => .error "down") "sys" "user" none = .ok none :=
  (zero_retry_attempts_returns_none ⟨fun _ => true, 0⟩ (fun _ _ => .error "down") "sys" "user"
    rfl ⟨.groq, by decide, rfl⟩).2

/-- C6 (counterexample): the per-provider retry loop of `_try_provider` waits
`2 ** attempt` seconds with no cap: with `retry_attempts = 8` and an
always-failing provider the waits are 1,2,4,...,64, and the wait before retry
attempt 6 — namely 64 = `base_delay * 2^6` with the default base delay —
exceeds the only configured maximum delay in the source (the decorator default
`max_delay = 60.0`), refuting "this wait time never exceeds a configured
maximum delay". -/
theorem retry_wait_exceeds_max_delay_counterexample :
    (tryProvider ⟨fun _ => true, 8⟩ (fun _ => .error "boom") .groq).waits =
      [1, 2, 4, 8, 16, 32, 64] ∧
    backoffDefaultBaseDelay * 2 ^ 6 = 64 ∧
    ¬(64 ≤ backoffDefaultMaxDelay) := by
  refine ⟨?_, by decide, by decide⟩
  rfl

/-- C6 (amended): in `_try_provider` the wait before retry attempt `attempt`
is exactly `2 ^ attempt` seconds (base delay 1, doubling each retry, attempts
`0 .. retry_attempts - 2`), with no maximum-delay cap; the capped formula
`min(base_delay * 2^attempt, max_delay)` belongs to the separate (unused)
decorator `retry_with_exponential_backoff`. -/
theorem retry_wait_times_formula (cfg : ClientConfig) (call : CallOracle) (p : Provider)
    (hfail : ∀ j, (call j).isOk = false) :
    (tryProvider cfg call p).waits =
      (List.range (cfg.retry_attempts - 1)).map (fun attempt => 2 ^ attempt) ∧
    (∀ baseDelay maxDelay attempt, backoffDelay baseDelay maxDelay attempt ≤ maxDelay) := by
  constructor
  · show (tryProviderAux call p cfg.retry_attempts 0).waits = _
    rw [tryProviderAux_waits call p cfg.retry_attempts 0 (fun j _ _ => hfail j),
      List.range_eq_range']
  · intro baseDelay maxDelay attempt
    exact Nat.min_le_right _ _

/-- Witness for C6's amended theorem with eight always-failing attempts. -/
theorem retry_wait_times_formula_witness :
    (tryProvider ⟨fun _ => true, 8⟩ (fun _ => .error "boom") .groq).waits =
      (List.range 7).map (fun attempt => 2 ^ attempt) :=
  (retry_wait_times_formula ⟨fun _ => true, 8⟩ (fun _ => .error "boom") .groq (fun _ => rfl)).1

/-! ## Claims about the cache -/

/-- C5: `set` followed by `get` with the identical (template_type,
section_name, prompt) triple returns the stored content, provided the elapsed
time does not exceed the TTL.  Holds for every digest function `hf`. -/
theorem cache_set_then_get_roundtrip (hf : String → String) (ttl : Nat) (st : CacheState)
    (t n p content : String) (s now : Nat) (httl : now - s ≤ ttl) :
    (cacheGet hf ttl (cacheSet hf st t n p content s) t n p now).1 = some content := by
  simp only [cacheGet, cacheSet, List.lookup_cons, beq_self_eq_true]
  rw [if_neg (by omega)]

/-- Witness for C5 at a concrete triple, times 5 and 7, TTL 24. -/
theorem cache_set_then_get_roundtrip_witness :
    (cacheGet (fun x => x) 24
        (cacheSet (fun x => x) [] "restaurant" "Introduction" "some prompt" "hello world" 5)
        "restaurant" "Introduction" "some prompt" 7).1 = some "hello world" :=
  cache_set_then_get_roundtrip (fun x => x) 24 [] "restaurant" "Introduction" "some prompt"
    "hello world" 5 7 (by decide)

/-- C9: the cache key is `hf(template_type ++ "_" ++ section_name ++ "_" ++
hf(prompt))`, and the underscore join is not injective in (template_type,
section_name): the distinct pairs `("a_b", "c")` and `("a", "b_c")` produce
the same key for any prompt and any digest function, so a `get` for one pair
returns content stored by a `set` for the other. -/
theorem cache_key_collision (hf : String → String) (ttl : Nat) (st : CacheState)
    (p c : String) :
    (("a_b", "c") : String × String) ≠ ("a", "b_c") ∧
    cacheKey hf "a_b" "c" p = cacheKey hf "a" "b_c" p ∧
    (cacheGet hf ttl (cacheSet hf st "a_b" "c" p c 0) "a" "b_c" p 0).1 = some c := by
  have hkey : cacheKey hf "a_b" "c" p = cacheKey hf "a" "b_c" p := by
    unfold cacheKey
    congr 1
  refine ⟨by decide, hkey, ?_⟩
  simp only [cacheGet, cacheSet, ← hkey, List.lookup_cons, beq_self_eq_true]
  rw [if_neg (by omega)]

/-! ## Claims about fallback content selection -/

/-- C7 (counterexample): the prompt keyword "monitoring" selects section type
`"monitoring"`, but `fallback_templates` has no entry for it, so the
introduction block is returned — identical to the block a no-keyword prompt
gets, so neither does "monitoring" have its own canned block, nor is the
generic default distinct from the keyword-specific blocks. -/
theorem fallback_monitoring_gets_introduction_block :
    fallbackSectionType "please draft the monitoring section" = "monitoring" ∧
    (getFallbackResponse "please draft the monitoring section").content = introductionTemplate ∧
    fallbackSectionType "xyz" = "general" ∧
    (getFallbackResponse "xyz").content = introductionTemplate := by
  refine ⟨by decide, rfl, by decide, rfl⟩

/-- C7 (amended): the fallback content is chosen by keyword-matching the
lower-cased user prompt via `fallbackSectionType` ("introduction";
"daily"/"procedure"; "crisis"/"emergency"; "training"; "monitoring";
"documentation"; default "general"), but only introduction, daily_procedures,
crisis_response and employee_training have (pairwise distinct) canned blocks;
the section types monitoring, documentation and the no-keyword default all
resolve to the introduction block. -/
theorem fallback_content_table (p : String) :
    (getFallbackResponse p).content = fallbackContentByType (fallbackSectionType p) ∧
    fallbackContentByType "introduction" = introductionTemplate ∧
    fallbackContentByType "daily_procedures" = dailyProceduresTemplate ∧
    fallbackContentByType "crisis_response" = crisisResponseTemplate ∧
    fallbackContentByType "employee_training" = employeeTrainingTemplate ∧
    fallbackContentByType "monitoring" = introductionTemplate ∧
    fallbackContentByType "documentation" = introductionTemplate ∧
    fallbackContentByType "general" = introductionTemplate ∧
    introductionTemplate ≠ dailyProceduresTemplate ∧
    introductionTemplate ≠ crisisResponseTemplate ∧
    introductionTemplate ≠ employeeTrainingTemplate ∧
    dailyProceduresTemplate ≠ crisisResponseTemplate ∧
    dailyProceduresTemplate ≠ employeeTrainingTemplate ∧
    crisisResponseTemplate ≠ employeeTrainingTemplate := by
  exact ⟨rfl, rfl, rfl, rfl, rfl, rfl, rfl, rfl,
    by decide, by decide, by decide, by decide, by decide, by decide⟩

/-! ## String-level support lemmas -/

theorem strLength_le_append_right (s t : String) : t.length ≤ (s ++ t).length := by
  rw [String.length_append]
  omega

theorem strContains_append_right (s t pat : String) (h : strContains t pat = true) :
    strContains (s ++ t) pat = true := by
  rw [strContains, decide_eq_true_iff] at h ⊢
  have hdata : (s ++ t).toList = s.toList ++ t.toList := by simp [String.toList]
  rw [hdata]
  exact h.trans (List.suffix_append s.toList t.toList).isInfix

theorem strContains_append_left (s t pat : String) (h : strContains s pat = true) :
    strContains (s ++ t) pat = true := by
  rw [strContains, decide_eq_true_iff] at h ⊢
  have hdata : (s ++ t).toList = s.toList ++ t.toList := by simp [String.toList]
  rw [hdata]
  exact h.trans (List.prefix_append s.toList t.toList).isInfix

theorem pyStrip_length_le (s : String) : (pyStrip s).length ≤ s.length := by
  have h1 : (s.toList.dropWhile Char.isWhitespace).length ≤ s.toList.length :=
    (List.dropWhile_sublist _).length_le
  have h2 : ((s.toList.dropWhile Char.isWhitespace).reverse.dropWhile Char.isWhitespace).length ≤
      (s.toList.dropWhile Char.isWhitespace).reverse.length :=
    (List.dropWhile_sublist _).length_le
  rw [List.length_reverse] at h2
  show (((s.toList.dropWhile Char.isWhitespace).reverse.dropWhile
      Char.isWhitespace).reverse).length ≤ s.toList.length
  rw [List.length_reverse]
  exact le_trans h2 h1

theorem hasMarker_of_hash (c : String) (h : strContains c "#" = true) :
    hasMarkdownMarker c = true := by
  simp [hasMarkdownMarker, markdownMarkers, h]

/-! ## Validity of the static content blocks -/

theorem validateSectionContent_implies (name content : String)
    (h : validateSectionContent name content = true) :
    100 ≤ content.length ∧ hasMarkdownMarker content = true := by
  unfold validateSectionContent at h
  split at h
  · cases h
  · rename_i h1
    split at h
    · cases h
    · split at h
      · cases h
      · rename_i h3
        constructor
        · simp only [Bool.or_eq_true, decide_eq_true_iff, not_or] at h1
          have h100 : ¬((pyStrip content).length < 100) := h1.2
          have := pyStrip_length_le content
          omega
        · simpa using h3

theorem fallbackContentExpr_valid (tt name : String) :
    100 ≤ (fallbackContentExpr tt name).length ∧
    hasMarkdownMarker (fallbackContentExpr tt name) = true := by
  constructor
  · unfold fallbackContentExpr
    refine le_trans ?_ (strLength_le_append_right _ _)
    decide
  · refine hasMarker_of_hash _ ?_
    unfold fallbackContentExpr
    refine strContains_append_right _ _ _ ?_
    decide

theorem hardcodedIntroduction_valid (tt : String) :
    100 ≤ (hardcodedIntroduction tt).length ∧
    hasMarkdownMarker (hardcodedIntroduction tt) = true := by
  constructor
  · unfold hardcodedIntroduction
    refine le_trans ?_ (strLength_le_append_right _ _)
    decide
  · refine hasMarker_of_hash _ ?_
    unfold hardcodedIntroduction
    refine strContains_append_right _ _ _ ?_
    decide

theorem hardcodedProcedures_valid :
    100 ≤ hardcodedProcedures.length ∧ hasMarkdownMarker hardcodedProcedures = true := by
  exact ⟨by decide, by decide⟩

theorem hardcodedCompliance_valid :
    100 ≤ hardcodedCompliance.length ∧ hasMarkdownMarker hardcodedCompliance = true := by
  exact ⟨by decide, by decide⟩

theorem hardcodedDocumentation_valid :
    100 ≤ hardcodedDocumentation.length ∧ hasMarkdownMarker hardcodedDocumentation = true := by
  exact ⟨by decide, by decide⟩

theorem hardcodedContent_stub_marker (name : String) :
    hasMarkdownMarker ("# " ++ name ++ "\n\nContent for " ++ name ++ " section.") = true := by
  refine hasMarker_of_hash _ ?_
  refine strContains_append_left _ _ _ ?_
  refine strContains_append_left _ _ _ ?_
  refine strContains_append_left _ _ _ ?_
  refine strContains_append_left _ _ _ ?_
  decide

theorem hardcodedContent_marker (tt name : String) :
    hasMarkdownMarker (hardcodedContent tt name) = true := by
  unfold hardcodedContent
  split
  · exact (hardcodedIntroduction_valid tt).2
  · split
    · exact hardcodedProcedures_valid.2
    · split
      · exact hardcodedCompliance_valid.2
      · split
        · exact hardcodedDocumentation_valid.2
        · exact hardcodedContent_stub_marker name

theorem hardcodedContent_table_valid (tt name : String)
    (hname : name ∈ ["Introduction", "Procedures", "Compliance Requirements", "Documentation"]) :
    100 ≤ (hardcodedContent tt name).length ∧
    hasMarkdownMarker (hardcodedContent tt name) = true := by
  refine ⟨?_, hardcodedContent_marker tt name⟩
  unfold hardcodedContent
  rcases List.mem_cons.mp hname with rfl | hname
  · rw [if_pos rfl]; exact (hardcodedIntroduction_valid tt).1
  rcases List.mem_cons.mp hname with rfl | hname
  · rw [if_neg (by decide), if_pos rfl]; exact hardcodedProcedures_valid.1
  rcases List.mem_cons.mp hname with rfl | hname
  · rw [if_neg (by decide), if_neg (by decide), if_pos rfl]; exact hardcodedCompliance_valid.1
  rcases List.mem_cons.mp hname with rfl | hname
  · rw [if_neg (by decide), if_neg (by decide), if_neg (by decide), if_pos rfl]
    exact hardcodedDocumentation_valid.1
  · cases hname

/-! ## Cache lookup support -/

theorem lookup_mem {st : CacheState} {k : String} {v : CacheEntry}
    (h : List.lookup k st = some v) : (k, v) ∈ st := by
  induction st with
  | nil => cases h
  | cons e t ih =>
    obtain ⟨k1, v1⟩ := e
    rw [List.lookup_cons] at h
    cases hbeq : k == k1 with
    | true =>
      rw [hbeq] at h
      simp only [] at h
      cases h
      exact List.mem_cons.mpr (Or.inl (by rw [beq_iff_eq.mp hbeq]))
    | false =>
      rw [hbeq] at h
      exact List.mem_cons.mpr (Or.inr (ih h))

theorem cacheGet_some_mem (hf : String → String) (ttl : Nat) (st : CacheState)
    (t n p : String) (now : Nat) (c : String)
    (h : (cacheGet hf ttl st t n p now).1 = some c) :
    ∃ ts, (cacheKey hf t n p, (⟨c, ts⟩ : CacheEntry)) ∈ st := by
  unfold cacheGet at h
  cases hl : List.lookup (cacheKey hf t n p) st with
  | none => rw [hl] at h; simp at h
  | some e =>
    rw [hl] at h
    obtain ⟨ec, ets⟩ := e
    by_cases hexp : now - ets > ttl
    · simp [hexp] at h
    · simp [hexp] at h
      exact ⟨ets, h ▸ lookup_mem hl⟩

/-! ## Claims about `generate_section` -/

/-- C2 (counterexample): in hardcoded mode, a section name outside the
four-entry hardcoded table yields the default stub, which for the name "X" is
27 characters — far below 100 — so `generate_section` does not always return a
string of length ≥ 100. -/
theorem generate_section_short_output_counterexample :
    (generateSection ⟨"restaurant", none, fun _ => "", true⟩ (fun x => x) 24
        (.ok "") [] 0 "X" []).1 = "# X\n\nContent for X section." ∧
    ¬(100 ≤ (generateSection ⟨"restaurant", none, fun _ => "", true⟩ (fun x => x) 24
        (.ok "") [] 0 "X" []).1.length) := by
  constructor
  · rfl
  · decide

/-- C2 (amended): `generate_section` never raises and always returns content
containing a markdown marker; the length-≥-100 guarantee additionally holds on
every path — cache hit, AI-generated (validated), fallback substitution and
hardcoded table — provided the initial cache only holds content satisfying the
guarantee (the cache is only ever written by this component) and, in hardcoded
mode, the section name is one of the four names of the hardcoded table (the
default stub for other names contains a marker but can be shorter than 100). -/
theorem generate_section_valid_output (g : GenCfg) (hf : String → String) (ttl : Nat)
    (api : Except String String) (st : CacheState) (now : Nat) (name : String)
    (reqs : List String)
    (hcache : ∀ e ∈ st, 100 ≤ e.2.content.length ∧ hasMarkdownMarker e.2.content = true)
    (hname : g.useHardcoded = false ∨
      name ∈ ["Introduction", "Procedures", "Compliance Requirements", "Documentation"]) :
    100 ≤ (generateSection g hf ttl api st now name reqs).1.length ∧
    hasMarkdownMarker (generateSection g hf ttl api st now name reqs).1 = true := by
  have hmiss : ∀ (st1 : CacheState) (prompt : String),
      100 ≤ (generateSectionMiss g hf api st1 now name prompt).1.length ∧
      hasMarkdownMarker (generateSectionMiss g hf api st1 now name prompt).1 = true := by
    intro st1 prompt
    unfold generateSectionMiss
    cases hh : g.useHardcoded with
    | true =>
      rcases hname with hfalse | htable
      · rw [hh] at hfalse; cases hfalse
      · simp only [hh, if_true]
        exact hardcodedContent_table_valid g.templateType name htable
    | false =>
      simp only [hh, Bool.false_eq_true, if_false]
      cases api with
      | ok c0 =>
        by_cases hv : validateSectionContent name c0 = true
        · simp only [hv, if_true]
          exact validateSectionContent_implies name c0 hv
        · simp only [Bool.not_eq_true] at hv
          simp only [hv, Bool.false_eq_true, if_false]
          exact fallbackContentExpr_valid g.templateType name
      | error e =>
        exact fallbackContentExpr_valid g.templateType name
  unfold generateSection
  cases hres : cacheGet hf ttl st g.templateType name (generationPrompt g name reqs) now with
  | mk o st1 =>
    cases o with
    | none => exact hmiss st1 _
    | some c =>
      by_cases hemp : c.isEmpty = true
      · simp only [hemp, if_true]
        exact hmiss st1 _
      · simp only [Bool.not_eq_true] at hemp
        simp only [hemp, Bool.false_eq_true, if_false]
        have hc : (cacheGet hf ttl st g.templateType name (generationPrompt g name reqs) now).1 =
            some c := by rw [hres]
        obtain ⟨ts, hmem⟩ := cacheGet_some_mem hf ttl st _ _ _ now c hc
        exact hcache _ hmem

/-- Witness for C2's amended theorem: empty cache, hardcoded mode, a table
section name. -/
theorem generate_section_valid_output_witness :
    100 ≤ (generateSection ⟨"restaurant", none, fun _ => "", true⟩ (fun x => x) 24
        (.error "down") [] 0 "Introduction" []).1.length ∧
    hasMarkdownMarker ((generateSection ⟨"restaurant", none, fun _ => "", true⟩ (fun x => x) 24
        (.error "down") [] 0 "Introduction" []).1) = true :=
  generate_section_valid_output ⟨"restaurant", none, fun _ => "", true⟩ (fun x => x) 24
    (.error "down") [] 0 "Introduction" [] (by intro e he; cases he) (Or.inr (by decide))

/-! ## Template assembler lemmas -/

theorem insertByOrder_perm (x : SectionDef) :
    ∀ l, (insertByOrder x l).Perm (x :: l) := by
  intro l
  induction l with
  | nil => exact List.Perm.refl _
  | cons y t ih =>
    unfold insertByOrder
    by_cases h : y.order.getD 999 < x.order.getD 999
    · rw [if_pos h]
      exact (ih.cons y).trans (List.Perm.swap x y t)
    · rw [if_neg h]

theorem sortByOrder_perm : ∀ l, (sortByOrder l).Perm l := by
  intro l
  induction l with
  | nil => exact List.Perm.refl _
  | cons x t ih => exact (insertByOrder_perm x (sortByOrder t)).trans (ih.cons x)

theorem assembleStep_sections (g : GenCfg) (hf : String → String) (ttl : Nat)
    (gen : SectionGen) (now : Nat) (a : AsmState) (is : Nat × SectionDef) :
    ∃ rec, (assembleStep g hf ttl gen now a is).sections =
      upsertRecord a.sections is.2.name rec := by
  unfold assembleStep
  cases hgen : gen (preCheck g hf ttl a is.2 now).2 is.1 is.2 with
  | ok v =>
    obtain ⟨content, st2⟩ := v
    exact ⟨_, rfl⟩
  | error e => exact ⟨_, rfl⟩

theorem assembleStep_counts (g : GenCfg) (hf : String → String) (ttl : Nat)
    (gen : SectionGen) (now : Nat) (a : AsmState) (is : Nat × SectionDef) :
    (assembleStep g hf ttl gen now a is).successful +
      (assembleStep g hf ttl gen now a is).failed = a.successful + a.failed + 1 := by
  unfold assembleStep
  cases hgen : gen (preCheck g hf ttl a is.2 now).2 is.1 is.2 with
  | ok v =>
    obtain ⟨content, st2⟩ := v
    dsimp only
    omega
  | error e =>
    dsimp only
    omega

theorem assemble_counts (g : GenCfg) (hf : String → String) (ttl : Nat)
    (gen : SectionGen) (now : Nat) :
    ∀ (l : List (Nat × SectionDef)) (a : AsmState),
      (l.foldl (assembleStep g hf ttl gen now) a).successful +
        (l.foldl (assembleStep g hf ttl gen now) a).failed =
      a.successful + a.failed + l.length := by
  intro l
  induction l with
  | nil => intro a; simp
  | cons x t ih =>
    intro a
    rw [List.foldl_cons, ih (assembleStep g hf ttl gen now a x), assembleStep_counts]
    simp only [List.length_cons]
    omega

theorem upsertRecord_keys_append (m : List (String × SectionRecord)) (k : String)
    (v : SectionRecord) (h : k ∉ m.map Prod.fst) :
    upsertRecord m k v = m ++ [(k, v)] := by
  unfold upsertRecord
  rw [if_neg ?_]
  intro hc
  rw [List.any_eq_true] at hc
  obtain ⟨e, he, hbeq⟩ := hc
  exact h (beq_iff_eq.mp hbeq ▸ List.mem_map_of_mem Prod.fst he)

theorem assemble_keys (g : GenCfg) (hf : String → String) (ttl : Nat)
    (gen : SectionGen) (now : Nat) :
    ∀ (l : List (Nat × SectionDef)) (a : AsmState),
      ((a.sections.map Prod.fst) ++ l.map (fun is => is.2.name)).Nodup →
      (l.foldl (assembleStep g hf ttl gen now) a).sections.map Prod.fst =
        a.sections.map Prod.fst ++ l.map (fun is => is.2.name) := by
  intro l
  induction l with
  | nil => intro a _; simp
  | cons x t ih =>
    intro a hnd
    simp only [List.map_cons] at hnd
    have hx_notmem : x.2.name ∉ a.sections.map Prod.fst := by
      rw [List.nodup_append] at hnd
      intro hmem
      exact hnd.2.2 hmem (List.mem_cons.mpr (Or.inl rfl))
    obtain ⟨rec, hrec⟩ := assembleStep_sections g hf ttl gen now a x
    have hkeys : (assembleStep g hf ttl gen now a x).sections.map Prod.fst =
        a.sections.map Prod.fst ++ [x.2.name] := by
      rw [hrec, upsertRecord_keys_append _ _ _ hx_notmem]
      simp
    have hnd2 : (((assembleStep g hf ttl gen now a x).sections.map Prod.fst) ++
        t.map (fun is => is.2.name)).Nodup := by
      rw [hkeys, List.append_assoc, List.singleton_append]
      exact hnd
    rw [List.foldl_cons, ih (assembleStep g hf ttl gen now a x) hnd2, hkeys,
      List.append_assoc, List.singleton_append, List.map_cons]

/-! ## Claims about `generate_template` -/

/-- C4 (counterexample): `sections` is a name-keyed dictionary, so two input
section definitions sharing the name "A" produce a single SectionRecord while
`total_sections` (and `successful_sections`) count both — the document does
not contain one record per input section definition. -/
theorem generate_template_duplicate_names_counterexample :
    (generateTemplateRun ⟨"restaurant", none, fun _ => "", true⟩ (fun x => x) 24
        (fun _ => .error "e") 0 []
        [⟨"A", some 1, true, []⟩, ⟨"A", some 2, true, []⟩]).1.sections.length = 1 ∧
    (generateTemplateRun ⟨"restaurant", none, fun _ => "", true⟩ (fun x => x) 24
        (fun _ => .error "e") 0 []
        [⟨"A", some 1, true, []⟩, ⟨"A", some 2, true, []⟩]).1.stats.total_sections = 2 ∧
    (generateTemplateRun ⟨"restaurant", none, fun _ => "", true⟩ (fun x => x) 24
        (fun _ => .error "e") 0 []
        [⟨"A", some 1, true, []⟩, ⟨"A", some 2, true, []⟩]).1.stats.successful_sections = 2 := by
  exact ⟨by decide, by decide, by decide⟩

/-- C4 (amended): for every non-empty input section list with pairwise
distinct names — and any loop body, raising or not — the document holds
exactly one SectionRecord per input section definition (its key set is a
permutation of the input names and has the input's length),
`generation_stats.total_sections` equals the input length, and
`successful_sections + failed_sections = total_sections` in every run.
(An empty input list is replaced by the four default sections, and duplicate
names collapse into one dictionary entry.) -/
theorem generate_template_one_record_per_section (g : GenCfg) (hf : String → String)
    (ttl : Nat) (gen : SectionGen) (now : Nat) (st0 : CacheState) (input : List SectionDef)
    (hne : input ≠ []) (hnodup : (input.map (fun s => s.name)).Nodup) :
    ((generateTemplate g hf ttl gen now st0 input).1.sections.map Prod.fst).Perm
      (input.map (fun s => s.name)) ∧
    (generateTemplate g hf ttl gen now st0 input).1.sections.length = input.length ∧
    (generateTemplate g hf ttl gen now st0 input).1.stats.total_sections = input.length ∧
    (generateTemplate g hf ttl gen now st0 input).1.stats.successful_sections +
      (generateTemplate g hf ttl gen now st0 input).1.stats.failed_sections =
      (generateTemplate g hf ttl gen now st0 input).1.stats.total_sections := by
  have hts : templateStructure input = input := by
    unfold templateStructure
    rw [if_neg (by simpa [List.isEmpty_iff] using hne)]
  have hperm : (sortedStructure input).Perm input := by
    unfold sortedStructure
    rw [hts]
    exact sortByOrder_perm input
  have hpermn : ((sortedStructure input).map (fun s => s.name)).Perm
      (input.map (fun s => s.name)) := hperm.map _
  have hnames : ((sortedStructure input).enum).map (fun is => is.2.name) =
      (sortedStructure input).map (fun s => s.name) := by
    have h2 := List.enum_map_snd (sortedStructure input)
    have h1 : ((sortedStructure input).enum).map (fun is => is.2.name) =
        (((sortedStructure input).enum).map Prod.snd).map (fun s => s.name) := by
      rw [List.map_map]
      rfl
    rw [h1, h2]
  have hkeys := assemble_keys g hf ttl gen now ((sortedStructure input).enum)
    ⟨[], 0, 0, 0, st0⟩ (by
      simp only [List.map_nil, List.nil_append, hnames]
      exact (hpermn.nodup_iff).mpr hnodup)
  have hsec : (generateTemplate g hf ttl gen now st0 input).1.sections =
      (((sortedStructure input).enum).foldl (assembleStep g hf ttl gen now)
        ⟨[], 0, 0, 0, st0⟩).sections := rfl
  have hcounts := assemble_counts g hf ttl gen now ((sortedStructure input).enum)
    ⟨[], 0, 0, 0, st0⟩
  simp only [List.map_nil, List.nil_append] at hkeys
  refine ⟨?_, ?_, ?_, ?_⟩
  · rw [hsec, hkeys, hnames]
    exact hpermn
  · have := congrArg List.length (hsec ▸ hkeys)
    rw [List.length_map] at this
    rw [this, List.length_map, List.enum_length]
    exact hperm.length_eq
  · show (templateStructure input).length = input.length
    rw [hts]
  · show (((sortedStructure input).enum).foldl (assembleStep g hf ttl gen now)
        ⟨[], 0, 0, 0, st0⟩).successful +
      (((sortedStructure input).enum).foldl (assembleStep g hf ttl gen now)
        ⟨[], 0, 0, 0, st0⟩).failed = (templateStructure input).length
    rw [hcounts]
    show 0 + 0 + ((sortedStructure input).enum).length = (templateStructure input).length
    rw [List.enum_length, hperm.length_eq, hts]
    omega

/-- Witness for C4's amended theorem: two distinct sections, a loop body that
always raises (both records still appear, failed = 2 = total). -/
theorem generate_template_one_record_per_section_witness :
    ((generateTemplate ⟨"r", none, fun _ => "", false⟩ (fun x => x) 24
        (fun _ _ _ => .error "boom") 0 []
        [⟨"A", some 1, true, []⟩, ⟨"B", none, true, []⟩]).1.sections.map Prod.fst).Perm
      ["A", "B"] ∧
    (generateTemplate ⟨"r", none, fun _ => "", false⟩ (fun x => x) 24
        (fun _ _ _ => .error "boom") 0 []
        [⟨"A", some 1, true, []⟩, ⟨"B", none, true, []⟩]).1.sections.length = 2 ∧
    (generateTemplate ⟨"r", none, fun _ => "", false⟩ (fun x => x) 24
        (fun _ _ _ => .error "boom") 0 []
        [⟨"A", some 1, true, []⟩, ⟨"B", none, true, []⟩]).1.stats.total_sections = 2 ∧
    (generateTemplate ⟨"r", none, fun _ => "", false⟩ (fun x => x) 24
        (fun _ _ _ => .error "boom") 0 []
        [⟨"A", some 1, true, []⟩, ⟨"B", none, true, []⟩]).1.stats.successful_sections +
      (generateTemplate ⟨"r", none, fun _ => "", false⟩ (fun x => x) 24
        (fun _ _ _ => .error "boom") 0 []
        [⟨"A", some 1, true, []⟩, ⟨"B", none, true, []⟩]).1.stats.failed_sections =
      (generateTemplate ⟨"r", none, fun _ => "", false⟩ (fun x => x) 24
        (fun _ _ _ => .error "boom") 0 []
        [⟨"A", some 1, true, []⟩, ⟨"B", none, true, []⟩]).1.stats.total_sections := by
  have h := generate_template_one_record_per_section ⟨"r", none, fun _ => "", false⟩
    (fun x => x) 24 (fun _ _ _ => .error "boom") 0 []
    [⟨"A", some 1, true, []⟩, ⟨"B", none, true, []⟩] (by decide) (by decide)
  exact ⟨h.1, h.2.1, h.2.2.1, h.2.2.2⟩

/-! ## Cache-state preservation lemmas for the dummy-prompt pre-check -/

theorem lookup_eraseKey_none (st : CacheState) (k j : String)
    (h : List.lookup k st = none) : List.lookup k (eraseKey st j) = none := by
  induction st with
  | nil => rfl
  | cons e t ih =>
    obtain ⟨k1, v1⟩ := e
    cases hbeq : k == k1 with
    | true =>
      simp only [List.lookup_cons, hbeq] at h
      exact absurd h (by simp)
    | false =>
      simp only [List.lookup_cons, hbeq] at h
      show List.lookup k (List.filter (fun e => !(e.1 == j)) ((k1, v1) :: t)) = none
      rw [List.filter_cons]
      by_cases hj : (!((k1, v1).1 == j)) = true
      · rw [if_pos hj]
        simp only [List.lookup_cons, hbeq]
        exact ih h
      · rw [if_neg hj]
        exact ih h

theorem lookup_cacheSet_ne (hf : String → String) (st : CacheState)
    (t n p c : String) (now : Nat) (k : String) (hne : k ≠ cacheKey hf t n p)
    (h : List.lookup k st = none) :
    List.lookup k (cacheSet hf st t n p c now) = none := by
  unfold cacheSet
  simp only [List.lookup_cons, beq_eq_false_iff_ne.mpr hne]
  exact lookup_eraseKey_none st k _ h

theorem cacheGet_lookup_none_snd (hf : String → String) (ttl : Nat) (st : CacheState)
    (t n p : String) (now : Nat) (k : String) (h : List.lookup k st = none) :
    List.lookup k (cacheGet hf ttl st t n p now).2 = none := by
  unfold cacheGet
  cases hl : List.lookup (cacheKey hf t n p) st with
  | none => exact h
  | some e =>
    show List.lookup k (if now - e.timestamp > ttl then
        ((none : Option String), eraseKey st (cacheKey hf t n p))
      else (some e.content, st)).2 = none
    by_cases hexp : now - e.timestamp > ttl
    · rw [if_pos hexp]
      exact lookup_eraseKey_none st k _ h
    · rw [if_neg hexp]
      exact h

theorem cacheGet_of_lookup_none (hf : String → String) (ttl : Nat) (st : CacheState)
    (t n p : String) (now : Nat)
    (h : List.lookup (cacheKey hf t n p) st = none) :
    cacheGet hf ttl st t n p now = (none, st) := by
  unfold cacheGet
  rw [h]

theorem generateSectionMiss_lookup_none (g : GenCfg) (hf : String → String)
    (api : Except String String) (st : CacheState) (now : Nat) (name prompt k : String)
    (hne : k ≠ cacheKey hf g.templateType name prompt)
    (h : List.lookup k st = none) :
    List.lookup k (generateSectionMiss g hf api st now name prompt).2 = none := by
  unfold generateSectionMiss
  cases hh : g.useHardcoded with
  | true =>
    simp only [hh, if_true]
    exact lookup_cacheSet_ne hf st _ _ _ _ now k hne h
  | false =>
    simp only [hh, Bool.false_eq_true, if_false]
    cases api with
    | ok c0 =>
      by_cases hv : validateSectionContent name c0 = true
      · simp only [hv, if_true]
        exact lookup_cacheSet_ne hf st _ _ _ _ now k hne h
      · simp only [Bool.not_eq_true] at hv
        simp only [hv, Bool.false_eq_true, if_false]
        exact lookup_cacheSet_ne hf st _ _ _ _ now k hne h
    | error e => exact lookup_cacheSet_ne hf st _ _ _ _ now k hne h

theorem generateSection_lookup_none (g : GenCfg) (hf : String → String) (ttl : Nat)
    (api : Except String String) (st : CacheState) (now : Nat) (name : String)
    (reqs : List String) (k : String)
    (hne : k ≠ cacheKey hf g.templateType name (generationPrompt g name reqs))
    (h : List.lookup k st = none) :
    List.lookup k (generateSection g hf ttl api st now name reqs).2 = none := by
  have hst1 : List.lookup k
      (cacheGet hf ttl st g.templateType name (generationPrompt g name reqs) now).2 = none :=
    cacheGet_lookup_none_snd hf ttl st _ _ _ now k h
  unfold generateSection
  cases hres : cacheGet hf ttl st g.templateType name (generationPrompt g name reqs) now with
  | mk o st1 =>
    rw [hres] at hst1
    cases o with
    | none => exact generateSectionMiss_lookup_none g hf api st1 now name _ k hne hst1
    | some c =>
      by_cases hemp : c.isEmpty = true
      · simp only [hemp, if_true]
        exact generateSectionMiss_lookup_none g hf api st1 now name _ k hne hst1
      · simp only [Bool.not_eq_true] at hemp
        simp only [hemp, Bool.false_eq_true, if_false]
        exact hst1

theorem upsertRecord_cached_false (m : List (String × SectionRecord)) (k : String)
    (v : SectionRecord) (hm : ∀ e ∈ m, e.2.cached = false) (hv : v.cached = false) :
    ∀ e ∈ upsertRecord m k v, e.2.cached = false := by
  unfold upsertRecord
  split
  · intro e he
    rw [List.mem_map] at he
    obtain ⟨e0, he0, heq⟩ := he
    by_cases hk : (e0.1 == k) = true
    · rw [if_pos hk] at heq
      subst heq
      exact hv
    · rw [if_neg hk] at heq
      subst heq
      exact hm e0 he0
  · intro e he
    rw [List.mem_append] at he
    rcases he with he | he
    · exact hm e he
    · rw [List.mem_singleton] at he
      subst he
      exact hv

/-- Loop invariant of `generate_template`: if no dummy-prompt key is in the
cache and dummy keys stay distinct from the generation-prompt keys the loop
writes, every pre-check misses, so all records carry `cached = false` and the
cached counter never advances. -/
theorem assemble_no_dummy_hits (g : GenCfg) (hf : String → String) (ttl : Nat)
    (api : Nat → Except String String) (now : Nat) :
    ∀ (l : List (Nat × SectionDef)) (a : AsmState),
      (∀ is ∈ l, List.lookup (cacheKey hf g.templateType is.2.name (dummyPrompt is.2.name))
        a.cache = none) →
      (∀ is ∈ l, ∀ js ∈ l,
        cacheKey hf g.templateType is.2.name (dummyPrompt is.2.name) ≠
        cacheKey hf g.templateType js.2.name (generationPrompt g js.2.name js.2.compliance)) →
      (∀ e ∈ a.sections, e.2.cached = false) →
      (∀ e ∈ (l.foldl (assembleStep g hf ttl (sectionGenOf g hf ttl api now) now) a).sections,
          e.2.cached = false) ∧
      (l.foldl (assembleStep g hf ttl (sectionGenOf g hf ttl api now) now) a).cached =
        a.cached := by
  intro l
  induction l with
  | nil => intro a _ _ hs; exact ⟨hs, rfl⟩
  | cons x t ih =>
    intro a hnone hdisj hs
    rw [List.foldl_cons]
    have hxnone := hnone x (List.mem_cons.mpr (Or.inl rfl))
    have hpre : preCheck g hf ttl a x.2 now = (none, a.cache) :=
      cacheGet_of_lookup_none hf ttl a.cache _ _ _ now hxnone
    have hred : assembleStep g hf ttl (sectionGenOf g hf ttl api now) now a x =
        { sections := upsertRecord a.sections x.2.name
            ⟨(generateSection g hf ttl (api x.1) (preCheck g hf ttl a x.2 now).2 now
                x.2.name x.2.compliance).1,
             x.2.order.getD (x.1 + 1), x.2.required,
             (preCheck g hf ttl a x.2 now).1.isSome, none⟩
          successful := a.successful + 1
          failed := a.failed
          cached := a.cached + (if (preCheck g hf ttl a x.2 now).1.isSome then 1 else 0)
          cache := (generateSection g hf ttl (api x.1) (preCheck g hf ttl a x.2 now).2 now
            x.2.name x.2.compliance).2 } := rfl
    rw [hred, hpre]
    have hih := ih
      { sections := upsertRecord a.sections x.2.name
          ⟨(generateSection g hf ttl (api x.1) a.cache now x.2.name x.2.compliance).1,
           x.2.order.getD (x.1 + 1), x.2.required, (none : Option String).isSome, none⟩
        successful := a.successful + 1
        failed := a.failed
        cached := a.cached + (if (none : Option String).isSome then 1 else 0)
        cache := (generateSection g hf ttl (api x.1) a.cache now x.2.name x.2.compliance).2 }
      (by
        intro is his
        exact generateSection_lookup_none g hf ttl (api x.1) a.cache now x.2.name
          x.2.compliance _
          (hdisj is (List.mem_cons.mpr (Or.inr his)) x (List.mem_cons.mpr (Or.inl rfl)))
          (hnone is (List.mem_cons.mpr (Or.inr his))))
      (by
        intro is his js hjs
        exact hdisj is (List.mem_cons.mpr (Or.inr his)) js (List.mem_cons.mpr (Or.inr hjs)))
      (by
        exact upsertRecord_cached_false a.sections x.2.name _ hs rfl)
    exact ⟨hih.1, hih.2⟩

/-- C8: the cache pre-check that sets the per-section `cached` flag uses the
dummy prompt `f"dummy_prompt_for_cache_check_{section_name}"`, which is not
the prompt used for generation and caching; provided no cache entry —
pre-existing (`hd0`) or written during the run (`hdisj`: the run only writes
under generation-prompt keys, which differ from every dummy-prompt key) —
lives under a dummy-prompt fingerprint, every SectionRecord's `cached` flag is
False and `generation_stats.cached_sections` is 0. -/
theorem generate_template_cached_always_false (g : GenCfg) (hf : String → String)
    (ttl : Nat) (api : Nat → Except String String) (now : Nat) (st0 : CacheState)
    (input : List SectionDef)
    (hd0 : ∀ s ∈ templateStructure input,
      List.lookup (cacheKey hf g.templateType s.name (dummyPrompt s.name)) st0 = none)
    (hdisj : ∀ s ∈ templateStructure input, ∀ s2 ∈ templateStructure input,
      cacheKey hf g.templateType s.name (dummyPrompt s.name) ≠
      cacheKey hf g.templateType s2.name (generationPrompt g s2.name s2.compliance)) :
    (∀ e ∈ (generateTemplateRun g hf ttl api now st0 input).1.sections, e.2.cached = false) ∧
    (generateTemplateRun g hf ttl api now st0 input).1.stats.cached_sections = 0 := by
  have hmem : ∀ is ∈ (sortedStructure input).enum, is.2 ∈ templateStructure input := by
    intro is his
    have h1 : is.2 ∈ ((sortedStructure input).enum).map Prod.snd :=
      List.mem_map_of_mem Prod.snd his
    rw [List.enum_map_snd] at h1
    exact ((sortByOrder_perm (templateStructure input)).mem_iff).mp h1
  have h := assemble_no_dummy_hits g hf ttl api now ((sortedStructure input).enum)
    ⟨[], 0, 0, 0, st0⟩
    (fun is his => hd0 is.2 (hmem is his))
    (fun is his js hjs => hdisj is.2 (hmem is his) js.2 (hmem js hjs))
    (by intro e he; cases he)
  exact ⟨h.1, h.2⟩

/-- Witness for C8: a one-section run from an empty cache; the dummy key and
the generation key are distinct concrete strings. -/
theorem generate_template_cached_always_false_witness :
    (generateTemplateRun ⟨"restaurant", none, fun _ => "", true⟩ (fun x => x) 24
        (fun _ => .error "e") 0 [] [⟨"Introduction", some 1, true, []⟩]).1.stats.cached_sections
      = 0 :=
  (generate_template_cached_always_false ⟨"restaurant", none, fun _ => "", true⟩ (fun x => x)
    24 (fun _ => .error "e") 0 [] [⟨"Introduction", some 1, true, []⟩]
    (by decide) (by decide)).2

end SOP
